import Mathlib

/-!
Shallow embedding of `src/Library_app.py` (a single-user library catalog
manager) and verification of its specification claims.

Modelling conventions:
- Python objects become Lean structures; in-place mutation becomes explicit
  state passing.
- A Python method that can `raise ValueError(...)` becomes a function into
  `Except (LibError × σ) (α × σ)`-like types; the error case carries the
  state exactly as it was at the moment of the `raise` (mutations written
  before the raise would show up there), so "state unchanged on failure" is
  a provable property, not a modelling artifact.
- Python strings are Lean `String`s; `str.lower()` is modelled by mapping
  `Char.toLower` over the characters; `q in s` (substring test) is modelled
  by the executable `hasSub` below.
- The backing JSON file is modelled by `FileData`: the branches the code
  distinguishes are a missing file, empty/whitespace-only text, text that
  fails to parse into the expected array-of-objects shape (any exception in
  `json.loads` or `Book(**item)`), and a successfully parsed array of
  records. The JSON text layer itself (`json.dumps`/`json.loads`) is
  abstracted: a successfully written file is represented by the list of
  records it contains.
-/

namespace LibraryApp

/-- Book entity (`class Book`, Library_app.py lines 10-39). The `status`
field is a plain string in the source (no validation at construction), so it
is a plain `String` here as well. -/
structure Book where
  title : String
  author : String
  isbn : String
  status : String
deriving DecidableEq, Repr

/-- Error kinds raised by the source (all `ValueError` in Python,
distinguished by message): duplicate ISBN on add, unknown ISBN on
issue/return, illegal status transition on `Book.issue`/`Book.return_book`. -/
inductive LibError where
  | duplicateKey
  | notFound
  | invalidState
deriving DecidableEq, Repr

/-- `Book.issue` (lines 28-31): raises if status is already "issued"
(before any mutation), otherwise sets status to "issued". The error carries
the book state at the moment of the raise. -/
def Book.issue (b : Book) : Except (LibError × Book) Book :=
  if b.status = "issued" then .error (.invalidState, b)
  else .ok { b with status := "issued" }

/-- `Book.return_book` (lines 33-36): raises if status is already
"available", otherwise sets status to "available". -/
def Book.return_book (b : Book) : Except (LibError × Book) Book :=
  if b.status = "available" then .error (.invalidState, b)
  else .ok { b with status := "available" }

/-- `Book.is_available` (lines 38-39). -/
def Book.is_available (b : Book) : Bool :=
  b.status == "available"

/-- One JSON object of the persisted array, as consumed by `Book(**item)`.
The `status` key may be absent (then `Book.__init__` defaults it to
"available"); a dict missing `title`/`author`/`isbn` or with extra keys makes
`Book(**item)` raise, which the load path absorbs into `FileData.invalid`. -/
structure BookDict where
  title : String
  author : String
  isbn : String
  status : Option String
deriving DecidableEq, Repr

/-- `Book.to_dict` (lines 20-26): serializes all four fields. -/
def Book.to_dict (b : Book) : BookDict :=
  ⟨b.title, b.author, b.isbn, some b.status⟩

/-- `Book(**item)` applied to a parsed record (line 62): `status` defaults
to "available" when the key is absent. -/
def bookOfDict (d : BookDict) : Book :=
  ⟨d.title, d.author, d.isbn, d.status.getD "available"⟩

/-- Abstract content of the backing file, split along exactly the branches
`LibraryInventory._load` (lines 50-65) distinguishes. -/
inductive FileData where
  | absent
  | blank
  | invalid
  | records (items : List BookDict)
deriving DecidableEq, Repr

/-- `LibraryInventory._load` (lines 50-65): missing file, empty/whitespace
text, or any parse/construction exception all yield the empty list; a
well-formed array yields one `Book` per record. Total: the whole body is
wrapped in `try/except Exception`, so no error escapes. -/
def load_file : FileData → List Book
  | .absent => []
  | .blank => []
  | .invalid => []
  | .records items => items.map bookOfDict

/-- `LibraryInventory._save` (lines 67-77) on its success path: the file
ends up holding exactly the serialized record list (temp write + atomic
replace). A failed save is swallowed by the source and leaves the old file;
the operations below model the successful persist. -/
def save_file (books : List Book) : FileData :=
  .records (books.map Book.to_dict)

/-- `class LibraryInventory` state: the in-memory book list and the backing
file content. `saves` counts how many times `_save` has been attempted -- a
modelling device to state "no persist is attempted" on failing paths. -/
structure LibraryInventory where
  books : List Book
  file : FileData
  saves : Nat
deriving DecidableEq, Repr

/-- `LibraryInventory.__init__` (lines 45-48): sets the empty list then
calls `_load`; never raises (see `load_file`). -/
def LibraryInventory.make (f : FileData) : LibraryInventory :=
  ⟨load_file f, f, 0⟩

/-- `LibraryInventory.search_by_isbn` (lines 91-95): linear scan, first
exact `isbn` match or `None`. -/
def search_by_isbn : List Book → String → Option Book
  | [], _ => none
  | b :: rest, isbn => if b.isbn = isbn then some b else search_by_isbn rest isbn

/-- Executable test that `needle` occurs at the start of `hay`
(the head comparison of Python substring search). -/
def leadsWith : List Char → List Char → Bool
  | [], _ => true
  | _ :: _, [] => false
  | c :: cs, d :: ds => c == d && leadsWith cs ds

/-- Executable substring containment, modelling Python `needle in hay`
on strings (char-list level): true iff `needle` occurs contiguously in
`hay`; the empty needle always matches. -/
def hasSub (needle : List Char) : List Char → Bool
  | [] => needle.isEmpty
  | c :: t => leadsWith needle (c :: t) || hasSub needle t

/-- Python `str.lower()`, modelled character-wise. -/
def lowerStr (s : String) : String :=
  ⟨s.data.map Char.toLower⟩

/-- `LibraryInventory.search_by_title` (lines 87-89): lowercases the query
once (`title_query or ""` is the identity on the strings the CLI passes),
keeps every book whose lowercased title contains it. -/
def search_by_title (s : LibraryInventory) (title_query : String) : List Book :=
  let q := lowerStr title_query
  s.books.filter (fun b => hasSub q.data (lowerStr b.title).data)

/-- `LibraryInventory.display_all` (lines 97-98): `list(self.books)` -- a
fresh list holding the same elements; the store is not touched. -/
def display_all (s : LibraryInventory) : List Book :=
  s.books

/-- `LibraryInventory.add_book` (lines 79-85): duplicate-ISBN check first
(raise before any mutation), else append the new available book, persist,
and return it. -/
def add_book (s : LibraryInventory) (title author isbn : String) :
    Except (LibError × LibraryInventory) (Book × LibraryInventory) :=
  match search_by_isbn s.books isbn with
  | some _ => .error (.duplicateKey, s)
  | none =>
    let book : Book := ⟨title, author, isbn, "available"⟩
    let books2 := s.books ++ [book]
    .ok (book, ⟨books2, save_file books2, s.saves + 1⟩)

/-- In-place mutation of the first `isbn` match, as a list update: the book
object found by `search_by_isbn` is a reference into `self.books`, so
assigning its field replaces the first matching position. -/
def updateFirstIsbn : List Book → String → Book → List Book
  | [], _, _ => []
  | b :: rest, isbn, nb =>
    if b.isbn = isbn then nb :: rest else b :: updateFirstIsbn rest isbn nb

/-- `LibraryInventory.issue_book` (lines 100-105): unknown ISBN raises
NotFound (a `Book` is always truthy, so `if not book` is exactly the `None`
test); otherwise delegates to `Book.issue` -- whose error propagates with the
book as it stood at the raise -- and persists only after success. -/
def issue_book (s : LibraryInventory) (isbn : String) :
    Except (LibError × LibraryInventory) LibraryInventory :=
  match search_by_isbn s.books isbn with
  | none => .error (.notFound, s)
  | some b =>
    match b.issue with
    | .error (e, b1) => .error (e, { s with books := updateFirstIsbn s.books isbn b1 })
    | .ok b2 =>
      let books2 := updateFirstIsbn s.books isbn b2
      .ok ⟨books2, save_file books2, s.saves + 1⟩

/-- `LibraryInventory.return_book` (lines 107-112): symmetric to
`issue_book` via `Book.return_book`. -/
def return_book (s : LibraryInventory) (isbn : String) :
    Except (LibError × LibraryInventory) LibraryInventory :=
  match search_by_isbn s.books isbn with
  | none => .error (.notFound, s)
  | some b =>
    match b.return_book with
    | .error (e, b1) => .error (e, { s with books := updateFirstIsbn s.books isbn b1 })
    | .ok b2 =>
      let books2 := updateFirstIsbn s.books isbn b2
      .ok ⟨books2, save_file books2, s.saves + 1⟩

/-- Status strings the spec's two-valued invariant allows. -/
def validStatus (b : Book) : Prop :=
  b.status = "available" ∨ b.status = "issued"

instance (b : Book) : Decidable (validStatus b) := by
  unfold validStatus; infer_instance

/-- Case-insensitive substring containment, stated independently of the
implementation via Mathlib's `List.IsInfix`. -/
def ciSub (q t : String) : Prop :=
  (lowerStr q).data <:+: (lowerStr t).data

/-- Inventory states reachable through the public API: a store constructed
over a file whose loaded books all carry a legal status, followed by any
sequence of successful `add_book` / `issue_book` / `return_book` calls.
(Loading performs no status validation, so the restriction on the initial
load is genuinely needed; see the C8 counterexample.) -/
inductive Reachable : LibraryInventory → Prop
  | init (f : FileData) (h : ∀ b ∈ load_file f, validStatus b) :
      Reachable (LibraryInventory.make f)
  | add {s : LibraryInventory} {t a i : String} {b : Book} {s2 : LibraryInventory}
      (hs : Reachable s) (h : add_book s t a i = .ok (b, s2)) : Reachable s2
  | issue {s : LibraryInventory} {i : String} {s2 : LibraryInventory}
      (hs : Reachable s) (h : issue_book s i = .ok s2) : Reachable s2
  | ret {s : LibraryInventory} {i : String} {s2 : LibraryInventory}
      (hs : Reachable s) (h : return_book s i = .ok s2) : Reachable s2

/-! ### Helper lemmas -/

/-- `leadsWith` decides list-prefix. -/
theorem leadsWith_iff (n h : List Char) : leadsWith n h = true ↔ n <+: h := by
  induction n generalizing h with
  | nil => simp [leadsWith]
  | cons c cs ih =>
    cases h with
    | nil => simp [leadsWith]
    | cons d ds =>
      simp [leadsWith, List.cons_prefix_cons, Bool.and_eq_true, beq_iff_eq, ih]

/-- `hasSub` decides contiguous-substring containment (`List.IsInfix`). -/
theorem hasSub_iff (n h : List Char) : hasSub n h = true ↔ n <:+: h := by
  induction h with
  | nil => simp [hasSub]
  | cons c t ih =>
    simp [hasSub, Bool.or_eq_true, leadsWith_iff, ih, List.infix_cons_iff]

/-- `search_by_isbn` is `List.find?` with the exact-isbn predicate. -/
theorem search_by_isbn_eq_find (bs : List Book) (i : String) :
    search_by_isbn bs i = bs.find? (fun b => b.isbn == i) := by
  induction bs with
  | nil => rfl
  | cons b rest ih =>
    by_cases hb : b.isbn = i
    · simp [search_by_isbn, hb]
    · simp [search_by_isbn, hb, ih]

/-- `search_by_isbn` returns `none` exactly when no stored book has the
requested isbn. -/
theorem search_by_isbn_eq_none {bs : List Book} {i : String} :
    search_by_isbn bs i = none ↔ ∀ b ∈ bs, b.isbn ≠ i := by
  rw [search_by_isbn_eq_find]
  simp [List.find?_eq_none]

/-- `search_by_isbn` returns `some b` exactly when `b` is the first stored
book whose isbn is the requested one. -/
theorem search_by_isbn_eq_some {bs : List Book} {i : String} {b : Book} :
    search_by_isbn bs i = some b ↔
      b.isbn = i ∧ ∃ l1 l2, bs = l1 ++ b :: l2 ∧ ∀ x ∈ l1, x.isbn ≠ i := by
  rw [search_by_isbn_eq_find, List.find?_eq_some]
  simp

/-- Replacing the first `isbn` match by the very book found there is the
identity: in-place field mutation that writes back the unchanged object
leaves the list as it was. -/
theorem updateFirstIsbn_self {bs : List Book} {i : String} {b : Book}
    (h : search_by_isbn bs i = some b) : updateFirstIsbn bs i b = bs := by
  induction bs with
  | nil => simp [search_by_isbn] at h
  | cons a rest ih =>
    by_cases ha : a.isbn = i
    · simp [search_by_isbn, ha] at h
      subst h
      simp [updateFirstIsbn, ha]
    · simp [search_by_isbn, ha] at h
      simp [updateFirstIsbn, ha, ih h]

/-- Every element of the updated list is an old element or the new book. -/
theorem mem_updateFirstIsbn {bs : List Book} {i : String} {nb x : Book}
    (hx : x ∈ updateFirstIsbn bs i nb) : x ∈ bs ∨ x = nb := by
  induction bs with
  | nil => simp [updateFirstIsbn] at hx
  | cons a rest ih =>
    by_cases ha : a.isbn = i
    · simp [updateFirstIsbn, ha] at hx
      rcases hx with hx | hx
      · right; exact hx
      · left; exact List.mem_cons_of_mem _ hx
    · simp [updateFirstIsbn, ha] at hx
      rcases hx with hx | hx
      · left; simp [hx]
      · rcases ih hx with h | h
        · left; exact List.mem_cons_of_mem _ h
        · right; exact h

/-- A successfully found book is a stored book with the requested isbn. -/
theorem search_by_isbn_some_mem {bs : List Book} {i : String} {b : Book}
    (h : search_by_isbn bs i = some b) : b ∈ bs ∧ b.isbn = i := by
  rcases search_by_isbn_eq_some.mp h with ⟨hbi, l1, l2, hbs, -⟩
  exact ⟨hbs ▸ List.mem_append_right l1 (List.mem_cons_self b l2), hbi⟩

/-- `Book.issue` errors carry `invalidState` and the untouched book. -/
theorem Book.issue_error {b b1 : Book} {e : LibError}
    (h : Book.issue b = .error (e, b1)) :
    e = .invalidState ∧ b1 = b ∧ b.status = "issued" := by
  unfold Book.issue at h
  split at h
  · rename_i hst
    simp only [Except.error.injEq, Prod.mk.injEq] at h
    exact ⟨h.1.symm, h.2.symm, hst⟩
  · exact absurd h (by simp)

/-- `Book.issue` succeeds exactly on a not-yet-issued book and sets the
status to "issued". -/
theorem Book.issue_ok {b b2 : Book} (h : Book.issue b = .ok b2) :
    b.status ≠ "issued" ∧ b2 = { b with status := "issued" } := by
  unfold Book.issue at h
  split at h
  · exact absurd h (by simp)
  · rename_i hst
    injection h with h'
    exact ⟨hst, h'.symm⟩

/-- `Book.return_book` errors carry `invalidState` and the untouched book. -/
theorem Book.return_book_error {b b1 : Book} {e : LibError}
    (h : Book.return_book b = .error (e, b1)) :
    e = .invalidState ∧ b1 = b ∧ b.status = "available" := by
  unfold Book.return_book at h
  split at h
  · rename_i hst
    simp only [Except.error.injEq, Prod.mk.injEq] at h
    exact ⟨h.1.symm, h.2.symm, hst⟩
  · exact absurd h (by simp)

/-- `Book.return_book` succeeds exactly on a non-available book and sets the
status to "available". -/
theorem Book.return_ok {b b2 : Book} (h : Book.return_book b = .ok b2) :
    b.status ≠ "available" ∧ b2 = { b with status := "available" } := by
  unfold Book.return_book at h
  split at h
  · exact absurd h (by simp)
  · rename_i hst
    injection h with h'
    exact ⟨hst, h'.symm⟩

/-- Characterization of a successful `add_book`: the returned book is the
fresh available one and the new state appends it at the end and persists. -/
theorem add_book_ok {s : LibraryInventory} {t a i : String} {b : Book}
    {s2 : LibraryInventory} (h : add_book s t a i = .ok (b, s2)) :
    b = ⟨t, a, i, "available"⟩ ∧
      s2 = ⟨s.books ++ [b], save_file (s.books ++ [b]), s.saves + 1⟩ := by
  unfold add_book at h
  cases hs : search_by_isbn s.books i with
  | some b' => rw [hs] at h; exact absurd h (by simp)
  | none =>
    rw [hs] at h
    simp only [Except.ok.injEq, Prod.mk.injEq] at h
    obtain ⟨hb, hs2⟩ := h
    subst hb
    exact ⟨rfl, hs2.symm⟩

/-- Characterization of a successful `issue_book`: the first matching book
was not issued; the state replaces it by its issued copy and persists. -/
theorem issue_book_ok {s : LibraryInventory} {i : String} {s2 : LibraryInventory}
    (h : issue_book s i = .ok s2) :
    ∃ b, search_by_isbn s.books i = some b ∧ b.status ≠ "issued" ∧
      s2 = ⟨updateFirstIsbn s.books i { b with status := "issued" },
            save_file (updateFirstIsbn s.books i { b with status := "issued" }),
            s.saves + 1⟩ := by
  cases hs : search_by_isbn s.books i with
  | none => simp [issue_book, hs] at h
  | some b =>
    cases hi : b.issue with
    | error eb =>
      obtain ⟨e, b1⟩ := eb
      simp [issue_book, hs, hi] at h
    | ok b2 =>
      obtain ⟨hst, hb2⟩ := Book.issue_ok hi
      subst hb2
      simp only [issue_book, hs, hi, Except.ok.injEq] at h
      exact ⟨b, rfl, hst, h.symm⟩

/-- Characterization of a successful `return_book`. -/
theorem return_book_ok {s : LibraryInventory} {i : String} {s2 : LibraryInventory}
    (h : return_book s i = .ok s2) :
    ∃ b, search_by_isbn s.books i = some b ∧ b.status ≠ "available" ∧
      s2 = ⟨updateFirstIsbn s.books i { b with status := "available" },
            save_file (updateFirstIsbn s.books i { b with status := "available" }),
            s.saves + 1⟩ := by
  cases hs : search_by_isbn s.books i with
  | none => simp [return_book, hs] at h
  | some b =>
    cases hi : b.return_book with
    | error eb =>
      obtain ⟨e, b1⟩ := eb
      simp [return_book, hs, hi] at h
    | ok b2 =>
      obtain ⟨hst, hb2⟩ := Book.return_ok hi
      subst hb2
      simp only [return_book, hs, hi, Except.ok.injEq] at h
      exact ⟨b, rfl, hst, h.symm⟩

/-! ### Claim theorems -/

/-- Claim C1: `add_book` fails with the duplicate-key error, leaving the
whole state (book list, file, persist count) unchanged, exactly when some
stored book already has the requested isbn; otherwise it appends exactly one
new book with the given fields and status "available" to the end of the
sequence, persists, and returns that book. -/
theorem add_book_meets_spec (s : LibraryInventory) (t a i : String) :
    (add_book s t a i = .error (.duplicateKey, s) ↔ ∃ b ∈ s.books, b.isbn = i) ∧
    ((∀ b ∈ s.books, b.isbn ≠ i) →
      add_book s t a i =
        .ok (⟨t, a, i, "available"⟩,
          ⟨s.books ++ [⟨t, a, i, "available"⟩],
           save_file (s.books ++ [⟨t, a, i, "available"⟩]), s.saves + 1⟩)) := by
  constructor
  · constructor
    · intro h
      cases hs : search_by_isbn s.books i with
      | none => simp [add_book, hs] at h
      | some b =>
        obtain ⟨hb, hbi⟩ := search_by_isbn_some_mem hs
        exact ⟨b, hb, hbi⟩
    · rintro ⟨b, hb, hbi⟩
      cases hs : search_by_isbn s.books i with
      | none =>
        exact absurd hbi (search_by_isbn_eq_none.mp hs b hb)
      | some b' => simp [add_book, hs]
  · intro h
    have hs : search_by_isbn s.books i = none := search_by_isbn_eq_none.mpr h
    simp [add_book, hs]

/-- Claim C1 witness: adding "Dune" to an empty store succeeds and appends
the available book. -/
theorem add_book_meets_spec_witness :
    add_book (LibraryInventory.make .absent) "Dune" "Frank Herbert" "111" =
      .ok (⟨"Dune", "Frank Herbert", "111", "available"⟩,
        ⟨[⟨"Dune", "Frank Herbert", "111", "available"⟩],
         save_file [⟨"Dune", "Frank Herbert", "111", "available"⟩], 1⟩) :=
  (add_book_meets_spec (LibraryInventory.make .absent) "Dune" "Frank Herbert" "111").2
    (by simp [LibraryInventory.make, load_file])

/-- Claim C2 counterexample: the claim quantifies over every `Book`, but for
a book whose status is already "issued" the sequence issue-return-issue fails
at its very first step, so it does not "succeed at every step". -/
theorem issue_sequence_counterexample :
    Book.issue ⟨"Dune", "Frank Herbert", "111", "issued"⟩ =
      .error (.invalidState, ⟨"Dune", "Frank Herbert", "111", "issued"⟩) := by
  simp [Book.issue]

/-- Claim C2 (amended): `Book.issue` fails with the invalid-state error,
leaving the book untouched, exactly when the status is "issued", and
otherwise sets the status to "issued"; `Book.return_book` fails exactly when
the status is "available" and otherwise sets it to "available". Consequently
`issue` immediately followed by `issue` fails the second time for every
book, and the sequence issue, return, issue succeeds at every step for every
book whose status is not already "issued" (in particular every available
book). -/
theorem book_transitions_meet_spec (b : Book) :
    (Book.issue b = .error (.invalidState, b) ↔ b.status = "issued") ∧
    (b.status ≠ "issued" → Book.issue b = .ok { b with status := "issued" }) ∧
    (Book.return_book b = .error (.invalidState, b) ↔ b.status = "available") ∧
    (b.status ≠ "available" →
      Book.return_book b = .ok { b with status := "available" }) ∧
    (∀ b1, Book.issue b = .ok b1 → Book.issue b1 = .error (.invalidState, b1)) ∧
    (b.status ≠ "issued" →
      ∃ b1 b2 b3, Book.issue b = .ok b1 ∧ Book.return_book b1 = .ok b2 ∧
        Book.issue b2 = .ok b3) := by
  refine ⟨?_, ?_, ?_, ?_, ?_, ?_⟩
  · constructor
    · intro h
      exact (Book.issue_error h).2.2
    · intro h
      simp [Book.issue, h]
  · intro h
    simp [Book.issue, h]
  · constructor
    · intro h
      exact (Book.return_book_error h).2.2
    · intro h
      simp [Book.return_book, h]
  · intro h
    simp [Book.return_book, h]
  · intro b1 h
    obtain ⟨-, hb1⟩ := Book.issue_ok h
    subst hb1
    simp [Book.issue]
  · intro h
    refine ⟨{ b with status := "issued" }, { b with status := "available" },
      { b with status := "issued" }, ?_, ?_, ?_⟩
    · simp [Book.issue, h]
    · simp [Book.return_book]
    · simp [Book.issue]

/-- Claim C2 witness: an available book runs the full issue-return-issue
sequence successfully, and a second immediate issue fails. -/
theorem book_transitions_meet_spec_witness :
    (∃ b1 b2 b3,
      Book.issue ⟨"Dune", "Frank Herbert", "111", "available"⟩ = .ok b1 ∧
      Book.return_book b1 = .ok b2 ∧ Book.issue b2 = .ok b3) ∧
    Book.issue ⟨"Dune", "Frank Herbert", "111", "issued"⟩ =
      .error (.invalidState, ⟨"Dune", "Frank Herbert", "111", "issued"⟩) :=
  ⟨(book_transitions_meet_spec ⟨"Dune", "Frank Herbert", "111", "available"⟩).2.2.2.2.2
      (by simp),
   (book_transitions_meet_spec ⟨"Dune", "Frank Herbert", "111", "issued"⟩).1.mpr rfl⟩

/-- Claim C4: persisting any book sequence and loading the resulting file
reconstructs the same sequence -- same length, same field values, same
order. -/
theorem save_load_roundtrip (books : List Book) :
    load_file (save_file books) = books := by
  induction books with
  | nil => rfl
  | cons b rest ih =>
    simpa [load_file, save_file, bookOfDict, Book.to_dict] using
      congrArg (List.cons b) (by simpa [load_file, save_file] using ih)

/-- Claim C5: constructing the store is total (never surfaces an error --
`LibraryInventory.make` is a plain function, the source wraps the whole load
in a catch-all handler), the loaded sequence is exactly `load_file` of the
file content, and a missing, blank, or unparseable file yields the empty
sequence. -/
theorem construction_never_fails (f : FileData) :
    (LibraryInventory.make f).books = load_file f ∧
    (f = .absent ∨ f = .blank ∨ f = .invalid →
      (LibraryInventory.make f).books = []) := by
  refine ⟨rfl, ?_⟩
  rintro (rfl | rfl | rfl) <;> rfl

/-- Claim C5 witness: a file that fails to parse yields the empty store. -/
theorem construction_never_fails_witness :
    (LibraryInventory.make .invalid).books = [] :=
  (construction_never_fails .invalid).2 (Or.inr (Or.inr rfl))

/-- Claim C3: `issue_book` fails with the not-found error (state untouched)
exactly when no stored book has the isbn; when the first matching book
exists, it delegates to `Book.issue` -- failing with the invalid-state error
and an untouched state when that book is already issued, and otherwise
replacing it by its issued copy and persisting (the persist counter moves
only on success). `return_book` behaves symmetrically via
`Book.return_book`. -/
theorem issue_return_book_meet_spec (s : LibraryInventory) (i : String) :
    ((∀ b ∈ s.books, b.isbn ≠ i) →
      issue_book s i = .error (.notFound, s) ∧
      return_book s i = .error (.notFound, s)) ∧
    (∀ b, search_by_isbn s.books i = some b →
      (b.status = "issued" → issue_book s i = .error (.invalidState, s)) ∧
      (b.status ≠ "issued" →
        issue_book s i = .ok
          ⟨updateFirstIsbn s.books i { b with status := "issued" },
           save_file (updateFirstIsbn s.books i { b with status := "issued" }),
           s.saves + 1⟩) ∧
      (b.status = "available" → return_book s i = .error (.invalidState, s)) ∧
      (b.status ≠ "available" →
        return_book s i = .ok
          ⟨updateFirstIsbn s.books i { b with status := "available" },
           save_file (updateFirstIsbn s.books i { b with status := "available" }),
           s.saves + 1⟩)) := by
  constructor
  · intro h
    have hs : search_by_isbn s.books i = none := search_by_isbn_eq_none.mpr h
    exact ⟨by simp [issue_book, hs], by simp [return_book, hs]⟩
  · intro b hs
    refine ⟨?_, ?_, ?_, ?_⟩
    · intro hst
      have hself := updateFirstIsbn_self hs
      simp [issue_book, hs, Book.issue, hst, hself]
    · intro hst
      simp [issue_book, hs, Book.issue, hst]
    · intro hst
      have hself := updateFirstIsbn_self hs
      simp [return_book, hs, Book.return_book, hst, hself]
    · intro hst
      simp [return_book, hs, Book.return_book, hst]

/-- Claim C3 witness: issuing isbn "999" on the empty store (constructed
over a missing file) fails with the not-found error and the untouched
state. -/
theorem issue_return_book_meet_spec_witness :
    issue_book (LibraryInventory.make .absent) "999" =
      .error (.notFound, LibraryInventory.make .absent) ∧
    return_book (LibraryInventory.make .absent) "999" =
      .error (.notFound, LibraryInventory.make .absent) :=
  (issue_return_book_meet_spec (LibraryInventory.make .absent) "999").1
    (by simp [LibraryInventory.make, load_file])

/-- Claim C6: `search_by_title` returns a sublist of the stored sequence
(hence in insertion order) holding exactly the books whose title contains
the query case-insensitively, and the empty query returns every stored
book. -/
theorem search_by_title_meets_spec (s : LibraryInventory) (q : String) :
    List.Sublist (search_by_title s q) s.books ∧
    (∀ b, b ∈ search_by_title s q ↔ b ∈ s.books ∧ ciSub q b.title) ∧
    search_by_title s "" = s.books := by
  refine ⟨List.filter_sublist _, ?_, ?_⟩
  · intro b
    simp [search_by_title, List.mem_filter, ciSub, ← hasSub_iff]
  · have h0 : (lowerStr "").data = [] := rfl
    rw [search_by_title, List.filter_eq_self]
    intro b hb
    rw [hasSub_iff, h0]
    exact List.nil_infix

/-- Claim C6 witness: the empty query returns the whole store. -/
theorem search_by_title_meets_spec_witness :
    search_by_title
      ⟨[⟨"Dune", "Frank Herbert", "111", "available"⟩,
        ⟨"Emma", "Jane Austen", "222", "issued"⟩], .absent, 0⟩ "" =
      [⟨"Dune", "Frank Herbert", "111", "available"⟩,
       ⟨"Emma", "Jane Austen", "222", "issued"⟩] :=
  (search_by_title_meets_spec
    ⟨[⟨"Dune", "Frank Herbert", "111", "available"⟩,
      ⟨"Emma", "Jane Austen", "222", "issued"⟩], .absent, 0⟩ "").2.2

/-- Claim C7: `search_by_isbn` yields `none` exactly when no stored book's
isbn field equals the argument (titles play no role), and yields `some b`
exactly when `b` is the first stored book, in insertion order, whose isbn
field equals the argument. -/
theorem search_by_isbn_meets_spec (s : LibraryInventory) (i : String) :
    (search_by_isbn s.books i = none ↔ ∀ b ∈ s.books, b.isbn ≠ i) ∧
    (∀ b, search_by_isbn s.books i = some b ↔
      b.isbn = i ∧ ∃ l1 l2, s.books = l1 ++ b :: l2 ∧ ∀ x ∈ l1, x.isbn ≠ i) :=
  ⟨search_by_isbn_eq_none, fun _ => search_by_isbn_eq_some⟩

/-- Claim C7 witness: a book whose title contains the string "111" does not
match `search_by_isbn "111"` -- only the isbn field counts. -/
theorem search_by_isbn_meets_spec_witness :
    search_by_isbn [⟨"all about 111", "anon", "222", "available"⟩] "111" = none :=
  (search_by_isbn_meets_spec
    ⟨[⟨"all about 111", "anon", "222", "available"⟩], .absent, 0⟩ "111").1.mpr
    (by decide)

/-- Claim C8 counterexample: loading performs no status validation, so a
backing file carrying the status "borrowed" produces a constructed store
whose book violates the two-valued status invariant -- the claim's "this
holds including states reached by loading from the backing file" is false. -/
theorem load_skips_status_validation_counterexample :
    ¬ (∀ b ∈ (LibraryInventory.make (FileData.records
        [⟨"Dune", "Frank Herbert", "111", some "borrowed"⟩])).books,
      validStatus b) := by
  intro h
  have := h ⟨"Dune", "Frank Herbert", "111", "borrowed"⟩ (by decide)
  rcases this with h' | h' <;> simp at h'

/-- Claim C8 (amended): along every state reachable through the API --
starting from a store whose loaded books all carry a legal status (in
particular any empty store) and applying successful add/issue/return calls
-- every book's status is "available" or "issued"; and every book created by
`add_book` starts "available". States loaded from a corrupted backing file
are excluded: `load_file` performs no status validation. -/
theorem status_invariant_meets_spec (s : LibraryInventory) :
    (Reachable s → ∀ b ∈ s.books, validStatus b) ∧
    (∀ t a i b s2, add_book s t a i = .ok (b, s2) → b.status = "available") := by
  constructor
  · intro hs
    induction hs with
    | init f h => exact h
    | add hr hadd ih =>
      obtain ⟨hb, hs2⟩ := add_book_ok hadd
      subst hs2
      intro x hx
      rcases List.mem_append.mp hx with h | h
      · exact ih x h
      · rw [List.mem_singleton.mp h, hb]
        exact Or.inl rfl
    | issue hr hiss ih =>
      obtain ⟨b, hsearch, hst, hs2⟩ := issue_book_ok hiss
      subst hs2
      intro x hx
      rcases mem_updateFirstIsbn hx with h | h
      · exact ih x h
      · rw [h]
        exact Or.inr rfl
    | ret hr hret ih =>
      obtain ⟨b, hsearch, hst, hs2⟩ := return_book_ok hret
      subst hs2
      intro x hx
      rcases mem_updateFirstIsbn hx with h | h
      · exact ih x h
      · rw [h]
        exact Or.inl rfl
  · intro t a i b s2 h
    rw [(add_book_ok h).1]

/-- Claim C8 witness: the store loaded from a well-formed file whose single
record is available satisfies the invariant, and a concrete `add_book`
returns an available book. -/
theorem status_invariant_meets_spec_witness :
    (∀ b ∈ (LibraryInventory.make (FileData.records
        [⟨"Dune", "Frank Herbert", "111", some "available"⟩])).books,
      validStatus b) ∧
    (⟨"Dune", "Frank Herbert", "111", "available"⟩ : Book).status = "available" :=
  ⟨(status_invariant_meets_spec (LibraryInventory.make (FileData.records
      [⟨"Dune", "Frank Herbert", "111", some "available"⟩]))).1
      (Reachable.init _ (by decide)),
   (status_invariant_meets_spec (LibraryInventory.make .absent)).2
      "Dune" "Frank Herbert" "111" ⟨"Dune", "Frank Herbert", "111", "available"⟩
      ⟨[⟨"Dune", "Frank Herbert", "111", "available"⟩],
       save_file [⟨"Dune", "Frank Herbert", "111", "available"⟩], 1⟩ rfl⟩

/-- Claim C9: whenever `issue_book` or `return_book` fails -- unknown isbn
or wrong status -- the error carries back exactly the pre-call state: book
sequence, backing file, and persist counter are all unchanged, so no persist
is attempted on a failing call. -/
theorem failing_ops_are_atomic (s : LibraryInventory) (i : String)
    (e : LibError) (s2 : LibraryInventory) :
    (issue_book s i = .error (e, s2) → s2 = s) ∧
    (return_book s i = .error (e, s2) → s2 = s) := by
  constructor
  · intro h
    cases hs : search_by_isbn s.books i with
    | none =>
      simp only [issue_book, hs, Except.error.injEq, Prod.mk.injEq] at h
      exact h.2.symm
    | some b =>
      cases hi : b.issue with
      | ok b2 => simp [issue_book, hs, hi] at h
      | error eb =>
        obtain ⟨e', b1⟩ := eb
        obtain ⟨he', hb1, hst⟩ := Book.issue_error hi
        subst hb1
        simp only [issue_book, hs, hi, Except.error.injEq, Prod.mk.injEq] at h
        rw [← h.2, updateFirstIsbn_self hs]
  · intro h
    cases hs : search_by_isbn s.books i with
    | none =>
      simp only [return_book, hs, Except.error.injEq, Prod.mk.injEq] at h
      exact h.2.symm
    | some b =>
      cases hi : b.return_book with
      | ok b2 => simp [return_book, hs, hi] at h
      | error eb =>
        obtain ⟨e', b1⟩ := eb
        obtain ⟨he', hb1, hst⟩ := Book.return_book_error hi
        subst hb1
        simp only [return_book, hs, hi, Except.error.injEq, Prod.mk.injEq] at h
        rw [← h.2, updateFirstIsbn_self hs]

/-- Claim C9 witness: issuing an already-issued book fails and hands back
the exact pre-call state (including the persist counter 3). -/
theorem failing_ops_are_atomic_witness :
    (⟨[⟨"Dune", "Frank Herbert", "111", "issued"⟩], .blank, 3⟩ : LibraryInventory) =
      ⟨[⟨"Dune", "Frank Herbert", "111", "issued"⟩], .blank, 3⟩ :=
  (failing_ops_are_atomic
    ⟨[⟨"Dune", "Frank Herbert", "111", "issued"⟩], .blank, 3⟩ "111"
    .invalidState
    ⟨[⟨"Dune", "Frank Herbert", "111", "issued"⟩], .blank, 3⟩).1
    (by simp [issue_book, search_by_isbn, Book.issue, updateFirstIsbn])

/-- Claim C10: the read operations are pure functions of the store -- they
take the state and return a value without producing a successor state, so
the book sequence, every book's fields, and the backing file are untouched
(the source bodies contain no assignment, and `display_all` returns
`list(self.books)`, a fresh copy, which value semantics models here). The
returned values are drawn from the stored sequence: `display_all` returns
exactly the stored books, `search_by_title` a sublist of them, and
`search_by_isbn` one of them. -/
theorem read_ops_preserve_store (s : LibraryInventory) (q i : String) :
    display_all s = s.books ∧
    List.Sublist (search_by_title s q) s.books ∧
    (∀ b, b ∈ search_by_title s q → b ∈ s.books) ∧
    (∀ b, search_by_isbn s.books i = some b → b ∈ s.books) := by
  refine ⟨rfl, List.filter_sublist _, ?_, ?_⟩
  · intro b hb
    exact List.Sublist.mem hb (List.filter_sublist _)
  · intro b hb
    exact (search_by_isbn_some_mem hb).1

/-- Claim C10 witness: on a one-book store, `display_all` returns the stored
sequence and `search_by_isbn` finds the stored book. -/
theorem read_ops_preserve_store_witness :
    display_all ⟨[⟨"Dune", "Frank Herbert", "111", "available"⟩], .absent, 0⟩ =
      [⟨"Dune", "Frank Herbert", "111", "available"⟩] ∧
    (⟨"Dune", "Frank Herbert", "111", "available"⟩ : Book) ∈
      [(⟨"Dune", "Frank Herbert", "111", "available"⟩ : Book)] :=
  ⟨(read_ops_preserve_store
      ⟨[⟨"Dune", "Frank Herbert", "111", "available"⟩], .absent, 0⟩ "" "111").1,
   (read_ops_preserve_store
      ⟨[⟨"Dune", "Frank Herbert", "111", "available"⟩], .absent, 0⟩ "" "111").2.2.2
      ⟨"Dune", "Frank Herbert", "111", "available"⟩ (by decide)⟩

end LibraryApp
